import Mathlib

/-!
Verification development for the community-moderation bot in `src/bot.py`.

The definitions below are a shallow embedding of the security core of the
bot: the sliding-window action tracker, the anti-nuke and anti-spam
detectors, the warning escalation engine, and the persistence layer.
Timestamps are modelled as integers, counts as integers (Python integers
are signed), and dictionaries as association lists.
-/

namespace SecurityBot

/-- A punishment requested from the enforcement capability. -/
inductive Punishment where
  | mute (minutes : Int)
  | kick
  | ban
deriving DecidableEq, Repr

/-- The process-wide security settings record, mirroring the keys of
`default_settings` in `load_security_settings` (src/bot.py lines 215-229). -/
structure SecuritySettings where
  antinuke_enabled : Bool
  antispam_enabled : Bool
  antinuke_ban_threshold : Int
  antinuke_kick_threshold : Int
  antinuke_time_window : Int
  antispam_message_limit : Int
  antispam_time_window : Int
  antispam_mention_limit : Int
  antispam_duplicate_limit : Int
  antispam_action : String
  antispam_mute_duration : Int
  whitelisted_roles : List String
deriving DecidableEq, Repr

/-- The `default_settings` dictionary of `load_security_settings`. -/
def default_settings : SecuritySettings :=
  { antinuke_enabled := true
    antispam_enabled := true
    antinuke_ban_threshold := 5
    antinuke_kick_threshold := 3
    antinuke_time_window := 10
    antispam_message_limit := 5
    antispam_time_window := 5
    antispam_mention_limit := 5
    antispam_duplicate_limit := 3
    antispam_action := "mute"
    antispam_mute_duration := 10
    whitelisted_roles := [] }

/-- One entry of `user_action_tracker[guild_id][user_id]`: an
`(action_type, timestamp)` pair. -/
abbrev ActionRecord := String × Int

/-- `track_user_action` (src/bot.py lines 298-317) restricted to one
`(guild_id, user_id)` record list: append the new action, prune entries
outside the anti-nuke time window, return the resulting count together
with the pruned list that is stored back into the tracker. -/
def track_user_action (s : SecuritySettings) (records : List ActionRecord)
    (action_type : String) (current_time : Int) : Nat × List ActionRecord :=
  let time_window := s.antinuke_time_window
  let appended := records ++ [(action_type, current_time)]
  let pruned := appended.filter (fun r => decide (current_time - r.2 < time_window))
  (pruned.length, pruned)

/-- Modelled from the spec: the repository has no read-only `peek` for the
tracker (src/ only has the recording `track_user_action`); spec section 4.1
describes `peek(scope, actor, timestamp) -> count` as the same pruning as
`record` without appending. -/
def peek_user_action (s : SecuritySettings) (records : List ActionRecord)
    (current_time : Int) : Nat :=
  (records.filter (fun r => decide (current_time - r.2 < s.antinuke_time_window))).length

/-- `handle_antinuke_violation` (src/bot.py lines 269-296): re-checks the
enable flag and the whitelist, then requests a ban when the count reaches
the ban threshold, else a kick when it reaches the kick threshold. -/
def handle_antinuke_violation (s : SecuritySettings) (whitelisted : Bool)
    (action_count : Nat) : Option Punishment :=
  if ¬ s.antinuke_enabled then none
  else if whitelisted then none
  else if s.antinuke_ban_threshold ≤ (action_count : Int) then some .ban
  else if s.antinuke_kick_threshold ≤ (action_count : Int) then some .kick
  else none

/-- The shared shape of the anti-nuke event handlers such as
`on_member_ban` (src/bot.py lines 1669-1685): when the detector is enabled
and the attributed actor is not whitelisted, record the action; the
violation handler is invoked only when the resulting count reaches the
kick threshold. Returns the requested punishment and the new record list. -/
def antinuke_on_event (s : SecuritySettings) (whitelisted : Bool)
    (records : List ActionRecord) (action_type : String) (current_time : Int) :
    Option Punishment × List ActionRecord :=
  if ¬ s.antinuke_enabled then (none, records)
  else if whitelisted then (none, records)
  else
    let r := track_user_action s records action_type current_time
    if s.antinuke_kick_threshold ≤ (r.1 : Int) then
      (handle_antinuke_violation s whitelisted r.1, r.2)
    else (none, r.2)

/-- One entry of `spam_tracker[guild_id][user_id]['messages']`: a
`(content, timestamp)` pair. -/
abbrev MessageRecord := String × Int

/-- The `recent_messages` list of the anti-spam check in `on_message`
(src/bot.py lines 596-599): retained messages within the detection window. -/
def recent_messages (messages : List MessageRecord) (current_time time_window : Int) :
    List MessageRecord :=
  messages.filter (fun m => decide (current_time - m.2 < time_window))

/-- The `duplicate_count` of the anti-spam check (src/bot.py line 605):
how many of the recent messages have content equal to the incoming one. -/
def duplicate_count (messages : List MessageRecord) (content : String)
    (current_time time_window : Int) : Nat :=
  ((recent_messages messages current_time time_window).filter
    (fun m => m.1 == content)).length

/-- Which punishment the configured anti-spam action string executes
(src/bot.py lines 624-635). -/
def antispam_action_punishment (s : SecuritySettings) : Option Punishment :=
  if s.antispam_action == "ban" then some .ban
  else if s.antispam_action == "kick" then some .kick
  else if s.antispam_action == "mute" then some (.mute s.antispam_mute_duration)
  else none

/-- Result of the anti-spam check for one incoming message. -/
structure SpamOutcome where
  is_spam : Bool
  spam_action : Option Punishment
  messages : List MessageRecord
deriving DecidableEq, Repr

/-- The anti-spam body of `on_message` (src/bot.py lines 587-659) for a
tracked author: the flood check compares the recent-message count with
greater-or-equal, the mention check uses strict greater-than, the duplicate
check uses greater-or-equal; on a violation the configured action runs and
the history is reset to empty; otherwise the message is appended and the
history pruned to twice the detection window. -/
def on_message_antispam (s : SecuritySettings) (user_messages : List MessageRecord)
    (content : String) (mention_count : Nat) (current_time : Int) : SpamOutcome :=
  let time_window := s.antispam_time_window
  let recent := recent_messages user_messages current_time time_window
  let dup := duplicate_count user_messages content current_time time_window
  let spam_rate := s.antispam_message_limit ≤ (recent.length : Int)
  let spam_mention := s.antispam_mention_limit < (mention_count : Int)
  let spam_dup := s.antispam_duplicate_limit ≤ (dup : Int)
  if spam_rate ∨ spam_mention ∨ spam_dup then
    { is_spam := true, spam_action := antispam_action_punishment s, messages := [] }
  else
    { is_spam := false
      spam_action := none
      messages := (user_messages ++ [(content, current_time)]).filter
        (fun m => decide (current_time - m.2 < time_window * 2)) }

/-- The guards in front of the anti-spam body (src/bot.py lines 572-578):
bot authors, a disabled detector, and whitelisted authors are never
tracked. -/
def on_message_spam_path (s : SecuritySettings) (author_is_bot whitelisted : Bool)
    (user_messages : List MessageRecord) (content : String) (mention_count : Nat)
    (current_time : Int) : Option SpamOutcome :=
  if author_is_bot then none
  else if ¬ s.antispam_enabled then none
  else if whitelisted then none
  else some (on_message_antispam s user_messages content mention_count current_time)

/-- Process a list of `(content, mention_count, timestamp)` message events,
threading the tracked message history through the anti-spam body. -/
def run_antispam (s : SecuritySettings) :
    List (String × Nat × Int) → List MessageRecord → List MessageRecord
  | [], h => h
  | (c, m, t) :: rest, h => run_antispam s rest (on_message_antispam s h c m t).messages

/-- The in-memory warnings table `warnings_data`, flattened to an
association list from `(guild_id, user_id)` string pairs to integer
counts (nested string-keyed dictionaries in the source). -/
abbrev Warnings := List ((String × String) × Int)

/-- Dictionary lookup `warnings_data[guild_id][user_id]`, `none` when the
guild or user key is absent. -/
def lookupWarn : Warnings → String → String → Option Int
  | [], _, _ => none
  | (k, v) :: rest, g, u => if k = (g, u) then some v else lookupWarn rest g u

/-- Dictionary assignment `warnings_data[guild_id][user_id] = v`. -/
def setWarn : Warnings → String → String → Int → Warnings
  | [], g, u, v => [((g, u), v)]
  | (k, w) :: rest, g, u, v =>
    if k = (g, u) then (k, v) :: rest else (k, w) :: setWarn rest g u v

/-- The state mutation of the `warn` command (src/bot.py lines 1272-1283):
initialize the count at 0 when absent, increment, store, and return the
post-increment count. -/
def warn (w : Warnings) (g u : String) : Warnings × Int :=
  let current := (lookupWarn w g u).getD 0
  let warning_count := current + 1
  (setWarn w g u warning_count, warning_count)

/-- The automatic punishment chain at the end of the `warn` command
(src/bot.py lines 1304-1312), evaluated on the post-increment count. -/
def warn_escalation (warning_count : Int) : Option Punishment :=
  if warning_count = 3 then some (.mute 10)
  else if warning_count = 4 then some (.mute 60)
  else if warning_count = 6 then some .kick
  else if 6 < warning_count then some .ban
  else none

/-- The code points CPython's `int()` strips as surrounding whitespace:
the ASCII whitespace accepted by its string-to-integer parser plus every
non-ASCII character its digit-and-space transform maps to a space
(CPython 3.11; note this is narrower than `str.isspace`, which also
accepts U+001C through U+001F while `int()` rejects them). -/
def py_space_codes : List Nat :=
  [0x9, 0xA, 0xB, 0xC, 0xD, 0x20, 0x85, 0xA0, 0x1680,
   0x2000, 0x2001, 0x2002, 0x2003, 0x2004, 0x2005, 0x2006, 0x2007,
   0x2008, 0x2009, 0x200A, 0x2028, 0x2029, 0x202F, 0x205F, 0x3000]

/-- Whether `int()` strips this character at either end of its argument. -/
def py_is_space (c : Char) : Bool := py_space_codes.contains c.toNat

/-- First code point of every run of ten Unicode decimal digits (category
Nd, Unicode 14.0 as used by CPython 3.11); each run maps to the values 0
through 9 in order. -/
def nd_digit_bases : List Nat :=
  [0x30, 0x660, 0x6F0, 0x7C0, 0x966, 0x9E6, 0xA66, 0xAE6, 0xB66, 0xBE6,
   0xC66, 0xCE6, 0xD66, 0xDE6, 0xE50, 0xED0, 0xF20, 0x1040, 0x1090,
   0x17E0, 0x1810, 0x1946, 0x19D0, 0x1A80, 0x1A90, 0x1B50, 0x1BB0,
   0x1C40, 0x1C50, 0xA620, 0xA8D0, 0xA900, 0xA9D0, 0xA9F0, 0xAA50,
   0xABF0, 0xFF10, 0x104A0, 0x10D30, 0x11066, 0x110F0, 0x11136, 0x111D0,
   0x112F0, 0x11450, 0x114D0, 0x11650, 0x116C0, 0x11730, 0x118E0,
   0x11950, 0x11C50, 0x11D50, 0x11DA0, 0x16A60, 0x16AC0, 0x16B50,
   0x1D7CE, 0x1D7D8, 0x1D7E2, 0x1D7EC, 0x1D7F6, 0x1E140, 0x1E2F0,
   0x1E950, 0x1FBF0]

/-- Decimal value of a Unicode decimal digit, `none` for every other
character. -/
def py_digit_val (c : Char) : Option Nat :=
  (nd_digit_bases.find? (fun b => decide (b ≤ c.toNat ∧ c.toNat ≤ b + 9))).map
    (fun b => c.toNat - b)

/-- Digits after the first one: a digit extends the accumulator, and an
underscore is allowed only when a digit follows it directly. -/
def parse_digits_aux : List Char → Nat → Option Nat
  | [], acc => some acc
  | '_' :: ds, acc =>
    match ds with
    | [] => none
    | d :: rest =>
      match py_digit_val d with
      | some v => parse_digits_aux rest (acc * 10 + v)
      | none => none
  | c :: ds, acc =>
    match py_digit_val c with
    | some v => parse_digits_aux ds (acc * 10 + v)
    | none => none

/-- An unsigned digit group: at least one digit, with underscore grouping
allowed only between digits. -/
def parse_udigits (ds : List Char) : Option Nat :=
  match ds with
  | [] => none
  | c :: rest =>
    match py_digit_val c with
    | some v => parse_digits_aux rest v
    | none => none

/-- The `int(amount)` conversion of `clearwarns` (src/bot.py line 1347),
with the semantics of CPython's `int()` on strings: surrounding whitespace
is stripped, then an optional single sign is followed by one or more
Unicode decimal digits with optional underscore grouping between digits;
anything else raises `ValueError` (modelled as `none`). -/
def parse_int (s : String) : Option Int :=
  let t := ((s.data.dropWhile py_is_space).reverse.dropWhile py_is_space).reverse
  match t with
  | '-' :: ds => (parse_udigits ds).map (fun n => -(n : Int))
  | '+' :: ds => (parse_udigits ds).map (fun n => (n : Int))
  | ds => (parse_udigits ds).map (fun n => (n : Int))

/-- The `amount.lower() == 'all'` test of `clearwarns` (src/bot.py
line 1342). -/
def amount_is_all (s : String) : Bool := s.data.map Char.toLower == "all".data

/-- How a `clearwarns` invocation ends. -/
inductive ClearOutcome where
  | noWarnings
  | invalidAmount
  | cleared (n : Int)
deriving DecidableEq, Repr

/-- Outcome, resulting warnings table, and whether `save_warnings` ran. -/
structure ClearResult where
  outcome : ClearOutcome
  warnings : Warnings
  saved : Bool
deriving DecidableEq, Repr

/-- The `clearwarns` command (src/bot.py lines 1325-1357): report when the
user has no entry; `"all"` (case-insensitive) clears everything; an
integer amount must be positive, clears `min(amount, current)` and stores
`max(0, current - amount)`; an unparsable amount is rejected. Only the
successful branches mutate the table and persist it. -/
def clearwarns (w : Warnings) (g u : String) (amount : String) : ClearResult :=
  match lookupWarn w g u with
  | none => ⟨.noWarnings, w, false⟩
  | some current_warnings =>
    if amount_is_all amount then
      ⟨.cleared current_warnings, setWarn w g u 0, true⟩
    else
      match parse_int amount with
      | none => ⟨.invalidAmount, w, false⟩
      | some n =>
        if n ≤ 0 then ⟨.invalidAmount, w, false⟩
        else ⟨.cleared (min n current_warnings),
              setWarn w g u (max 0 (current_warnings - n)), true⟩

/-- A warning-table operation: the state-mutating part of the `warn` and
`clearwarns` commands. -/
inductive WarnOp where
  | warnUser (g u : String)
  | clearUser (g u amount : String)

/-- Apply one operation to the warnings table. -/
def applyWarnOp (w : Warnings) : WarnOp → Warnings
  | .warnUser g u => (warn w g u).1
  | .clearUser g u amount => (clearwarns w g u amount).warnings

/-- Apply a sequence of warn and clear operations. -/
def runWarnOps (w : Warnings) (ops : List WarnOp) : Warnings :=
  ops.foldl applyWarnOp w

/-- File contents as a character list. -/
abbrev FileData := List Char

/-- Elementary filesystem steps a save routine performs, at the
granularity at which an interrupted or concurrent reader can observe the
target file. -/
inductive FsStep where
  | openTruncTarget
  | appendTarget (c : Char)
  | appendTmp (c : Char)
  | renameTmpToTarget
deriving DecidableEq, Repr

/-- The target file and the temporary sibling. -/
structure FsState where
  target : FileData
  tmp : FileData
deriving DecidableEq, Repr

/-- Effect of one step on the two files. -/
def fsStep (s : FsState) : FsStep → FsState
  | .openTruncTarget => { s with target := [] }
  | .appendTarget c => { s with target := s.target ++ [c] }
  | .appendTmp c => { s with tmp := s.tmp ++ [c] }
  | .renameTmpToTarget => { target := s.tmp, tmp := [] }

/-- Every content of the target file a reader can observe while the given
steps run: the content before the first step and after each step. -/
def observations : FsState → List FsStep → List FileData
  | s, [] => [s.target]
  | s, st :: rest => s.target :: observations (fsStep s st) rest

/-- The `_write_json` body of `save_json_async`, also `save_json_sync`
(src/bot.py lines 154-181): serialize into a temporary file in the target
directory, then atomically replace the target with it. -/
def save_json_steps (doc : FileData) : List FsStep :=
  doc.map FsStep.appendTmp ++ [FsStep.renameTmpToTarget]

/-- `save_bot_state` (src/bot.py lines 339-345): opens the target itself
for writing (truncating it) and serializes directly into it. -/
def save_bot_state_steps (doc : FileData) : List FsStep :=
  FsStep.openTruncTarget :: doc.map FsStep.appendTarget

/-- The three persisted documents of the bot. -/
inductive PersistedDoc where
  | warnings
  | securitySettings
  | enablement
deriving DecidableEq, Repr

/-- Which save routine each document uses: `save_warnings` and
`save_security_settings` both go through `save_json_async` (src/bot.py
lines 183-196 and 244-249), while the enablement flag goes through
`save_bot_state`. -/
def saveStepsFor : PersistedDoc → FileData → List FsStep
  | .warnings, d => save_json_steps d
  | .securitySettings, d => save_json_steps d
  | .enablement, d => save_bot_state_steps d

/-- State of one on-disk document as seen by the loader. -/
inductive FileContent where
  | absent
  | corrupt
  | valid (d : Warnings)
deriving DecidableEq, Repr

/-- What `load_warnings` returns and the backup file it leaves behind. -/
structure LoadResult where
  data : Warnings
  backup : FileContent
deriving DecidableEq, Repr

/-- `load_warnings` (src/bot.py lines 126-149): when the primary file
exists and parses, return it and refresh the backup; when it exists but
fails to parse, fall back to the backup when that parses, else return the
empty table; when the primary file does not exist, return the empty table
immediately (the backup is not consulted on this path). -/
def load_warnings (primary backup : FileContent) : LoadResult :=
  match primary with
  | .valid d => ⟨d, .valid d⟩
  | .corrupt =>
    match backup with
    | .valid b => ⟨b, .valid b⟩
    | .corrupt => ⟨[], .corrupt⟩
    | .absent => ⟨[], .absent⟩
  | .absent => ⟨[], backup⟩

/-! Helper lemmas shared by the claim theorems. -/

/-- A filter whose predicate holds on every element keeps the whole list. -/
theorem filter_all {α : Type} (p : α → Bool) (l : List α)
    (h : ∀ a ∈ l, p a = true) : l.filter p = l := by
  induction l with
  | nil => rfl
  | cons x xs ih =>
    rw [List.filter_cons_of_pos (h x (List.mem_cons_self x xs)),
      ih fun a ha => h a (List.mem_cons_of_mem x ha)]

/-- Every entry of an updated warnings table is the new binding or an old
entry. -/
theorem mem_setWarn {w : Warnings} {g u : String} {v : Int} {e}
    (he : e ∈ setWarn w g u v) : e = ((g, u), v) ∨ e ∈ w := by
  induction w with
  | nil =>
    simp only [setWarn, List.mem_singleton] at he
    exact Or.inl he
  | cons x rest ih =>
    obtain ⟨k, w'⟩ := x
    simp only [setWarn] at he
    by_cases hk : k = (g, u)
    · rw [if_pos hk] at he
      rcases List.mem_cons.1 he with h | h
      · exact Or.inl (by rw [h, hk])
      · exact Or.inr (List.mem_cons_of_mem _ h)
    · rw [if_neg hk] at he
      rcases List.mem_cons.1 he with h | h
      · exact Or.inr (by rw [h]; exact List.mem_cons_self _ _)
      · rcases ih h with h' | h'
        · exact Or.inl h'
        · exact Or.inr (List.mem_cons_of_mem _ h')

/-- A successful lookup returns a value stored in the table. -/
theorem lookupWarn_mem {w : Warnings} {g u : String} {v : Int}
    (h : lookupWarn w g u = some v) : ((g, u), v) ∈ w := by
  induction w with
  | nil => simp [lookupWarn] at h
  | cons x rest ih =>
    obtain ⟨k, w'⟩ := x
    simp only [lookupWarn] at h
    by_cases hk : k = (g, u)
    · rw [if_pos hk] at h
      exact List.mem_cons.2 (Or.inl (by rw [hk, Option.some_inj.1 h]))
    · rw [if_neg hk] at h
      exact List.mem_cons_of_mem _ (ih h)

/-- Looking up the key just stored returns the stored value. -/
theorem lookupWarn_setWarn (w : Warnings) (g u : String) (v : Int) :
    lookupWarn (setWarn w g u v) g u = some v := by
  induction w with
  | nil => simp [setWarn, lookupWarn]
  | cons x rest ih =>
    obtain ⟨k, w'⟩ := x
    simp only [setWarn]
    by_cases hk : k = (g, u)
    · rw [if_pos hk]
      simp [lookupWarn, hk]
    · rw [if_neg hk]
      simp [lookupWarn, hk, ih]

/-- Sanity checks of the `int()` model against observed CPython behavior:
whitespace stripping, underscore grouping, non-ASCII decimal digits
(U+0665 and U+FF15 both denote five), and the rejected shapes (doubled,
leading or trailing underscore, interior whitespace, bare sign, empty,
non-numeric). -/
theorem parse_int_examples :
    parse_int " 5 " = some 5
    ∧ parse_int "1_0" = some 10
    ∧ parse_int "٥" = some 5
    ∧ parse_int "５" = some 5
    ∧ parse_int "  +5  " = some 5
    ∧ parse_int "+1_0" = some 10
    ∧ parse_int "-42" = some (-42)
    ∧ parse_int "007" = some 7
    ∧ parse_int "1__0" = none
    ∧ parse_int "_5" = none
    ∧ parse_int "5_" = none
    ∧ parse_int "- 5" = none
    ∧ parse_int "+" = none
    ∧ parse_int "" = none
    ∧ parse_int "all" = none := by
  decide

/-! Claim theorems. -/

/-- C1: for every user in a guild, the escalation policy evaluated on the
post-increment warning count after each warn call triggers exactly: no
punishment at counts 1, 2 and 5; a 10-minute mute at count 3; a 60-minute
mute at count 4; a kick at count 6; and a ban at every count greater
than 6. -/
theorem warn_escalation_table (w : Warnings) (g u : String) :
    ((warn w g u).2 = 1 ∨ (warn w g u).2 = 2 ∨ (warn w g u).2 = 5 →
      warn_escalation (warn w g u).2 = none)
    ∧ ((warn w g u).2 = 3 → warn_escalation (warn w g u).2 = some (.mute 10))
    ∧ ((warn w g u).2 = 4 → warn_escalation (warn w g u).2 = some (.mute 60))
    ∧ ((warn w g u).2 = 6 → warn_escalation (warn w g u).2 = some .kick)
    ∧ (6 < (warn w g u).2 → warn_escalation (warn w g u).2 = some .ban) := by
  refine ⟨?_, ?_, ?_, ?_, ?_⟩ <;> intro h
  · rcases h with h | h | h <;> rw [h] <;> decide
  · rw [h]; decide
  · rw [h]; decide
  · rw [h]; decide
  · unfold warn_escalation
    rw [if_neg (by omega), if_neg (by omega), if_neg (by omega), if_pos h]

/-- Witness for C1 at a concrete input: the first warning of a fresh user
triggers no punishment. -/
theorem warn_escalation_table_witness :
    warn_escalation (warn [] "g" "u").2 = none :=
  (warn_escalation_table [] "g" "u").1 (Or.inl (by decide))

/-- C2: recording an action at time T returns exactly the number of
retained records with timestamp in the closed interval from T minus the
window to T, every retained record has timestamp at least T minus the
window, and a read-only peek at T observes the same count. -/
theorem track_user_action_window (s : SecuritySettings)
    (records : List ActionRecord) (a : String) (T : Int)
    (hts : ∀ r ∈ records, r.2 ≤ T) :
    (track_user_action s records a T).1 =
      ((track_user_action s records a T).2.filter
        (fun r => decide (T - s.antinuke_time_window ≤ r.2 ∧ r.2 ≤ T))).length
    ∧ (∀ r ∈ (track_user_action s records a T).2,
        T - s.antinuke_time_window ≤ r.2)
    ∧ peek_user_action s (track_user_action s records a T).2 T =
        (track_user_action s records a T).1 := by
  have hmem : ∀ r ∈ (track_user_action s records a T).2,
      T - r.2 < s.antinuke_time_window ∧ r.2 ≤ T := by
    intro r hr
    unfold track_user_action at hr
    simp only [List.mem_filter, decide_eq_true_eq] at hr
    obtain ⟨hin, hlt⟩ := hr
    refine ⟨hlt, ?_⟩
    rcases List.mem_append.1 hin with h | h
    · exact hts r h
    · rw [List.mem_singleton.1 h]
  have hkeep : (track_user_action s records a T).2.filter
      (fun r => decide (T - s.antinuke_time_window ≤ r.2 ∧ r.2 ≤ T)) =
      (track_user_action s records a T).2 := by
    refine filter_all _ _ fun r hr => ?_
    obtain ⟨h1, h2⟩ := hmem r hr
    simp only [decide_eq_true_eq]
    exact ⟨by omega, h2⟩
  have hkeep2 : (track_user_action s records a T).2.filter
      (fun r => decide (T - r.2 < s.antinuke_time_window)) =
      (track_user_action s records a T).2 := by
    refine filter_all _ _ fun r hr => ?_
    simp only [decide_eq_true_eq]
    exact (hmem r hr).1
  refine ⟨?_, ?_, ?_⟩
  · rw [hkeep]; rfl
  · intro r hr
    have := (hmem r hr).1
    omega
  · show ((track_user_action s records a T).2.filter
      (fun r => decide (T - r.2 < s.antinuke_time_window))).length = _
    rw [hkeep2]; rfl

/-- Witness for C2 at a concrete input. -/
theorem track_user_action_window_witness :
    (track_user_action default_settings [("ban", 5)] "ban" 7).1 =
      ((track_user_action default_settings [("ban", 5)] "ban" 7).2.filter
        (fun r => decide (7 - default_settings.antinuke_time_window ≤ r.2 ∧
          r.2 ≤ 7))).length :=
  (track_user_action_window default_settings [("ban", 5)] "ban" 7 (by decide)).1

/-- A legal configuration (both thresholds at least 1) whose ban threshold
lies below its kick threshold. -/
def s_ban_lt_kick : SecuritySettings :=
  { default_settings with antinuke_ban_threshold := 1, antinuke_kick_threshold := 3 }

/-- C3 counterexample: with ban threshold 1 and kick threshold 3 (both at
least 1), a first recorded destructive action gives count 1, which meets
the ban threshold, yet the event handler requests no punishment, because
the handler only consults the violation logic once the count reaches the
kick threshold. -/
theorem antinuke_gate_counterexample :
    (1 : Int) ≤ s_ban_lt_kick.antinuke_ban_threshold
    ∧ (1 : Int) ≤ s_ban_lt_kick.antinuke_kick_threshold
    ∧ s_ban_lt_kick.antinuke_ban_threshold ≤
        ((track_user_action s_ban_lt_kick [] "ban" 0).1 : Int)
    ∧ (antinuke_on_event s_ban_lt_kick false [] "ban" 0).1 = none := by
  decide

/-- C3 amended: for a tracked destructive-action event (detector enabled,
actor not whitelisted), the violation handler runs only when the
post-record count reaches the kick threshold; then a ban is requested when
the count also reaches the ban threshold, else a kick; below the kick
threshold nothing is requested, even when the count reaches the ban
threshold. -/
theorem antinuke_event_policy (s : SecuritySettings)
    (records : List ActionRecord) (a : String) (T : Int)
    (hen : s.antinuke_enabled = true) :
    (((track_user_action s records a T).1 : Int) < s.antinuke_kick_threshold →
      (antinuke_on_event s false records a T).1 = none)
    ∧ (s.antinuke_kick_threshold ≤ ((track_user_action s records a T).1 : Int) →
      s.antinuke_ban_threshold ≤ ((track_user_action s records a T).1 : Int) →
      (antinuke_on_event s false records a T).1 = some .ban)
    ∧ (s.antinuke_kick_threshold ≤ ((track_user_action s records a T).1 : Int) →
      ((track_user_action s records a T).1 : Int) < s.antinuke_ban_threshold →
      (antinuke_on_event s false records a T).1 = some .kick) := by
  refine ⟨fun h1 => ?_, fun h1 h2 => ?_, fun h1 h2 => ?_⟩ <;>
    simp only [antinuke_on_event, handle_antinuke_violation, hen] <;>
    split_ifs <;> simp_all <;> omega

/-- Witness for C3 amended at a concrete input: three actions inside the
default ten-second window trigger a kick. -/
theorem antinuke_event_policy_witness :
    (antinuke_on_event default_settings false [("ban", 0), ("ban", 0)]
      "ban" 0).1 = some .kick :=
  (antinuke_event_policy default_settings [("ban", 0), ("ban", 0)] "ban" 0
    rfl).2.2 (by decide) (by decide)

/-- A legal configuration whose duplicate limit is 1, so that any
contribution to the duplicate count would flag the message. -/
def s_dup1 : SecuritySettings :=
  { default_settings with antispam_duplicate_limit := 1 }

/-- C4 counterexample: with the default five-second detection window, a
message sent at time 0 and repeated at time 6 is still retained (6 is
within twice the window), yet it contributes nothing to the duplicate
count, and even a duplicate limit of 1 raises no violation: the duplicate
check filters to the detection window itself. -/
theorem antispam_duplicate_window_counterexample :
    duplicate_count [("x", (0 : Int))] "x" 6 s_dup1.antispam_time_window = 0
    ∧ (6 : Int) - 0 < s_dup1.antispam_time_window * 2
    ∧ (on_message_antispam s_dup1 [("x", 0)] "x" 0 6).is_spam = false
    ∧ ("x", (0 : Int)) ∈ (on_message_antispam s_dup1 [("x", 0)] "x" 0 6).messages := by
  decide

/-- C4 amended: a retained earlier message with equal content stops
contributing to the duplicate count as soon as it is older than the
detection window W, even while it is still retained because retention is
2W: duplicate detection looks back exactly as far as the flood-rate
check. -/
theorem duplicate_count_detection_window (content : String) (ts T W : Int)
    (hist : List MessageRecord) (hold : W ≤ T - ts) (hret : T - ts < W * 2) :
    duplicate_count ((content, ts) :: hist) content T W =
      duplicate_count hist content T W
    ∧ (content, ts) ∈ ((content, ts) :: hist).filter
        (fun m => decide (T - m.2 < W * 2)) := by
  constructor
  · unfold duplicate_count recent_messages
    rw [List.filter_cons_of_neg]
    simp only [decide_eq_true_eq]
    omega
  · rw [List.filter_cons_of_pos]
    · exact List.mem_cons_self _ _
    · simp only [decide_eq_true_eq]
      omega

/-- Witness for C4 amended at the concrete input of the claim: window 5,
first message at 0, repetition at 6. -/
theorem duplicate_count_detection_window_witness :
    duplicate_count [("x", (0 : Int))] "x" 6 5 = duplicate_count [] "x" 6 5 :=
  (duplicate_count_detection_window "x" 0 6 5 [] (by decide) (by decide)).1

/-- C5: with the default message limit 5 and window 5, an author who sent
five messages within four seconds and sends a sixth inside the window
triggers the configured action (the default mute of 10 minutes), and on
every violation the tracked history is reset to empty, without retaining
the triggering message. -/
theorem antispam_flood_scenario :
    (on_message_antispam default_settings
        (run_antispam default_settings
          [("m1", 0, 0), ("m2", 0, 1), ("m3", 0, 2), ("m4", 0, 3), ("m5", 0, 4)] [])
        "m6" 0 4).is_spam = true
    ∧ (on_message_antispam default_settings
        (run_antispam default_settings
          [("m1", 0, 0), ("m2", 0, 1), ("m3", 0, 2), ("m4", 0, 3), ("m5", 0, 4)] [])
        "m6" 0 4).spam_action = some (.mute 10)
    ∧ ∀ (s : SecuritySettings) (h : List MessageRecord) (c : String) (m : Nat)
        (t : Int), (on_message_antispam s h c m t).is_spam = true →
        (on_message_antispam s h c m t).messages = [] := by
  refine ⟨by decide, by decide, ?_⟩
  intro s h c m t hspam
  simp only [on_message_antispam] at hspam ⊢
  by_cases hc : s.antispam_message_limit ≤
      ((recent_messages h t s.antispam_time_window).length : Int)
    ∨ s.antispam_mention_limit < (m : Int)
    ∨ s.antispam_duplicate_limit ≤
      ((duplicate_count h c t s.antispam_time_window : Nat) : Int)
  · rw [if_pos hc]
  · rw [if_neg hc] at hspam
    exact absurd hspam (by simp)

/-- Witness for C5: the reset conjunct applied at a concrete violating
input. -/
theorem antispam_flood_scenario_witness :
    (on_message_antispam default_settings
      [("a", 0), ("b", 0), ("c", 0), ("d", 0), ("e", 0)] "f" 0 0).messages = [] :=
  antispam_flood_scenario.2.2 default_settings
    [("a", 0), ("b", 0), ("c", 0), ("d", 0), ("e", 0)] "f" 0 0 (by decide)

/-- C10: a mention count exactly equal to the configured mention limit
does not by itself raise a violation (strict greater-than), while a
recent-message count or duplicate count exactly equal to its limit does
(greater-or-equal). -/
theorem antispam_threshold_boundaries (s : SecuritySettings)
    (h : List MessageRecord) (content : String) (m : Nat) (T : Int) :
    ((m : Int) = s.antispam_mention_limit →
      ((recent_messages h T s.antispam_time_window).length : Int) <
        s.antispam_message_limit →
      ((duplicate_count h content T s.antispam_time_window : Nat) : Int) <
        s.antispam_duplicate_limit →
      (on_message_antispam s h content m T).is_spam = false)
    ∧ (((recent_messages h T s.antispam_time_window).length : Int) =
        s.antispam_message_limit →
      (on_message_antispam s h content m T).is_spam = true)
    ∧ (((duplicate_count h content T s.antispam_time_window : Nat) : Int) =
        s.antispam_duplicate_limit →
      (on_message_antispam s h content m T).is_spam = true) := by
  refine ⟨fun h1 h2 h3 => ?_, fun h1 => ?_, fun h1 => ?_⟩ <;>
    simp only [on_message_antispam]
  · rw [if_neg]
    intro hc
    rcases hc with hc | hc | hc <;> omega
  · rw [if_pos (Or.inl (by omega))]
  · rw [if_pos (Or.inr (Or.inr (by omega)))]

/-- Witness for C10 at a concrete input: exactly five mentions with the
default limit of five raise nothing. -/
theorem antispam_threshold_boundaries_witness :
    (on_message_antispam default_settings [] "x" 5 0).is_spam = false :=
  (antispam_threshold_boundaries default_settings [] "x" 5 0).1
    (by decide) (by decide) (by decide)

/-- Previous enablement document content. -/
def enablement_prev : FileData := "\x7b\"enabled\": true\x7d".toList

/-- New enablement document content. -/
def enablement_next : FileData := "\x7b\"enabled\": false\x7d".toList

/-- C6 counterexample: the enablement document is written by opening the
target file itself for writing, so right after the truncating open a
reader observes the empty file, which is neither the fully-previous nor
the fully-new content. -/
theorem save_bot_state_partial_counterexample :
    ([] : FileData) ∈ observations ⟨enablement_prev, []⟩
      (saveStepsFor .enablement enablement_next)
    ∧ ([] : FileData) ≠ enablement_prev
    ∧ ([] : FileData) ≠ enablement_next := by
  decide

/-- Observations during an atomic temp-file save: the old target content
until the rename, then the temporary content with the document appended. -/
theorem observations_save_json (l : List Char) (s : FsState) :
    observations s (l.map FsStep.appendTmp ++ [FsStep.renameTmpToTarget]) =
      List.replicate (l.length + 1) s.target ++ [s.tmp ++ l] := by
  induction l generalizing s with
  | nil => simp [observations, fsStep]
  | cons c l ih =>
    simp only [List.map_cons, List.cons_append, observations, fsStep,
      List.append_eq]
    rw [ih]
    simp [List.replicate_succ, List.append_assoc, List.length_cons]

/-- C6 amended: saves of the warnings and security-settings documents
serialize to a temporary file and atomically replace the target, so a
reader observes only the fully-previous or the fully-new content; the
enablement document, by contrast, is written directly into the target
file, where a reader can observe a partially-written state. -/
theorem save_json_atomic (p : PersistedDoc) (hp : p ≠ .enablement)
    (old doc : FileData) (obs : FileData)
    (hobs : obs ∈ observations ⟨old, []⟩ (saveStepsFor p doc)) :
    obs = old ∨ obs = doc := by
  have hsteps : saveStepsFor p doc = save_json_steps doc := by
    cases p with
    | warnings => rfl
    | securitySettings => rfl
    | enablement => exact absurd rfl hp
  rw [hsteps] at hobs
  unfold save_json_steps at hobs
  rw [observations_save_json] at hobs
  rcases List.mem_append.1 hobs with h | h
  · exact Or.inl (List.eq_of_mem_replicate h)
  · right
    simpa using List.mem_singleton.1 h

/-- Witness for C6 amended at a concrete input: during a warnings save the
only observations are the old and the new content. -/
theorem save_json_atomic_witness :
    (['a'] : FileData) = ['a'] ∨ (['a'] : FileData) = ['b'] :=
  save_json_atomic .warnings (by decide) ['a'] ['b'] ['a'] (by decide)

/-- A non-empty backup document. -/
def backup_doc : Warnings := [(("g", "u"), 3)]

/-- C7 counterexample: with the primary warnings file missing and a valid,
non-empty backup present, the loader returns the empty document instead of
falling back to the backup. -/
theorem load_warnings_missing_primary_counterexample :
    (load_warnings .absent (.valid backup_doc)).data = []
    ∧ backup_doc ≠ [] := by
  decide

/-- C7 amended: a parsing primary is returned and refreshes the backup; a
corrupt primary falls back to the backup when that parses, and yields the
empty document when the backup is corrupt or absent; a missing primary
yields the empty document immediately, without consulting the backup. -/
theorem load_warnings_fallback (d b : Warnings) (bc : FileContent) :
    load_warnings (.valid d) bc = ⟨d, .valid d⟩
    ∧ load_warnings .corrupt (.valid b) = ⟨b, .valid b⟩
    ∧ load_warnings .corrupt .corrupt = ⟨[], .corrupt⟩
    ∧ load_warnings .corrupt .absent = ⟨[], .absent⟩
    ∧ load_warnings .absent bc = ⟨[], bc⟩ :=
  ⟨rfl, rfl, rfl, rfl, rfl⟩

/-- C8: for a user with current count c, amount `"all"` clears exactly c
and stores 0; a positive integer n clears min(n, c) and stores
max(0, c - n), persisting in both cases; a non-positive or unparsable
amount is rejected with no mutation and no persistence. -/
theorem clearwarns_spec (w : Warnings) (g u amount : String) (c : Int)
    (hc : lookupWarn w g u = some c) :
    (amount_is_all amount = true →
      clearwarns w g u amount = ⟨.cleared c, setWarn w g u 0, true⟩
      ∧ lookupWarn (clearwarns w g u amount).warnings g u = some 0)
    ∧ (∀ n : Int, amount_is_all amount = false → parse_int amount = some n →
      0 < n →
      (clearwarns w g u amount).outcome = .cleared (min n c)
      ∧ lookupWarn (clearwarns w g u amount).warnings g u = some (max 0 (c - n))
      ∧ (clearwarns w g u amount).saved = true)
    ∧ (∀ n : Int, amount_is_all amount = false → parse_int amount = some n →
      n ≤ 0 →
      clearwarns w g u amount = ⟨.invalidAmount, w, false⟩)
    ∧ (amount_is_all amount = false → parse_int amount = none →
      clearwarns w g u amount = ⟨.invalidAmount, w, false⟩) := by
  refine ⟨fun hall => ?_, fun n hnall hn hpos => ?_,
    fun n hnall hn hneg => ?_, fun hnall hnone => ?_⟩
  · have h1 : clearwarns w g u amount = ⟨.cleared c, setWarn w g u 0, true⟩ := by
      simp [clearwarns, hc, hall]
    exact ⟨h1, by rw [h1]; exact lookupWarn_setWarn w g u 0⟩
  · have hpos' : ¬ n ≤ 0 := by omega
    have h1 : clearwarns w g u amount =
        ⟨.cleared (min n c), setWarn w g u (max 0 (c - n)), true⟩ := by
      simp [clearwarns, hc, hnall, hn, hpos']
    rw [h1]
    exact ⟨rfl, lookupWarn_setWarn w g u (max 0 (c - n)), rfl⟩
  · simp [clearwarns, hc, hnall, hn, hneg]
  · simp [clearwarns, hc, hnall, hnone]

/-- Witness for C8 at a concrete input: clearing all of five warnings. -/
theorem clearwarns_spec_witness :
    clearwarns [(("g", "u"), (5 : Int))] "g" "u" "all" =
      ⟨.cleared 5, setWarn [(("g", "u"), (5 : Int))] "g" "u" 0, true⟩ :=
  ((clearwarns_spec [(("g", "u"), (5 : Int))] "g" "u" "all" 5 rfl).1
    (by decide)).1

/-- One warn or clear operation preserves non-negativity of every stored
count. -/
theorem applyWarnOp_nonneg (w : Warnings) (op : WarnOp)
    (hw : ∀ e ∈ w, 0 ≤ e.2) : ∀ e ∈ applyWarnOp w op, 0 ≤ e.2 := by
  cases op with
  | warnUser g u =>
    intro e he
    simp only [applyWarnOp, warn] at he
    rcases mem_setWarn he with he | he
    · rw [he]
      show (0 : Int) ≤ (lookupWarn w g u).getD 0 + 1
      cases hl : lookupWarn w g u with
      | none => simp
      | some v =>
        have := hw _ (lookupWarn_mem hl)
        simp only [Option.getD_some]
        omega
    · exact hw e he
  | clearUser g u amount =>
    intro e he
    simp only [applyWarnOp] at he
    cases hl : lookupWarn w g u with
    | none =>
      simp only [clearwarns, hl] at he
      exact hw e he
    | some cw =>
      by_cases hall : amount_is_all amount = true
      · simp only [clearwarns, hl, hall, if_true] at he
        rcases mem_setWarn he with he | he
        · rw [he]
        · exact hw e he
      · rw [Bool.not_eq_true] at hall
        cases hn : parse_int amount with
        | none =>
          simp only [clearwarns, hl, hall, hn, Bool.false_eq_true, if_false] at he
          exact hw e he
        | some n =>
          by_cases hneg : n ≤ 0
          · simp only [clearwarns, hl, hall, hn, hneg, Bool.false_eq_true,
              if_false, if_true] at he
            exact hw e he
          · simp only [clearwarns, hl, hall, hn, hneg, Bool.false_eq_true,
              if_false] at he
            rcases mem_setWarn he with he | he
            · rw [he]
              exact le_max_left 0 _
            · exact hw e he

/-- Every operation sequence preserves non-negativity of stored counts. -/
theorem runWarnOps_nonneg (ops : List WarnOp) : ∀ w : Warnings,
    (∀ x ∈ w, 0 ≤ x.2) → ∀ x ∈ runWarnOps w ops, 0 ≤ x.2 := by
  induction ops with
  | nil =>
    intro w hw x hx
    simp only [runWarnOps, List.foldl_nil] at hx
    exact hw x hx
  | cons op rest ih =>
    intro w hw x hx
    simp only [runWarnOps, List.foldl_cons] at hx
    exact ih (applyWarnOp w op) (applyWarnOp_nonneg w op hw) x hx

/-- C9: starting from the empty warnings table, every sequence of warn and
clear operations leaves every stored count non-negative. -/
theorem warn_counts_nonneg (ops : List WarnOp) (e : (String × String) × Int)
    (he : e ∈ runWarnOps [] ops) : 0 ≤ e.2 :=
  runWarnOps_nonneg ops [] (by simp) e he

/-- Witness for C9 at a concrete input: one warning of a fresh user leaves
the single stored count at 1. -/
theorem warn_counts_nonneg_witness :
    (0 : Int) ≤ ((("g", "u"), (1 : Int))).2 :=
  warn_counts_nonneg [.warnUser "g" "u"] (("g", "u"), 1) (by decide)

end SecurityBot
